import Mathlib

/-!
Verification of the process-supervision and shutdown-orchestration core of the
`ai-development-suite` desktop launcher, against its natural-language spec.

The development shallowly embeds the Python modules the claims are about:

* `comfy-ui/launcher/event_system.py`   — `EventPublisher` (subscribe / unsubscribe / publish)
* `comfy-ui/launcher/server_manager.py` — `ServerManager` (`kill_process_on_port`,
  `start_server`, `wait_for_server_availability`, `shutdown_server`)
* `comfy_launcher/__main__.py`          — `app_logic_thread_func` (the background monitor)
* `comfy_launcher/gui_manager.py`       — the availability call inside
  `redirect_when_ready_loop`

Effectful Python is embedded by explicit state passing: a handler is an opaque
identifier together with an arbitrary effect function on the bus state; the OS
and scheduler are oracles (records of booleans / functions) that decide every
branch the code can take; traces record the externally visible actions
(published events, log warnings, kill calls) that the claims speak about.
-/

/-- The event kinds of `AppEventType` in `comfy-ui/launcher/event_system.py`. -/
inductive AppEventType where
  | GUI_WINDOW_CONTENT_LOADED
  | GUI_WINDOW_HIDDEN
  | GUI_WINDOW_SHOWN
  | APPLICATION_QUIT_REQUESTED
  | APPLICATION_CRITICAL_ERROR
  | SERVER_STOPPED_UNEXPECTEDLY
  | APP_LOGIC_SHUTDOWN_COMPLETE
  | TRAY_MANAGER_SHUTDOWN_COMPLETE
  | TEST_EVENT_NO_ARGS
  | TEST_EVENT_WITH_ARGS
  | SHOW_WINDOW_REQUEST
  deriving DecidableEq, Repr

/-- State of an `EventPublisher`: the subscriber registry.  The Python
`defaultdict(list)` maps every event type to a list of handlers (insertion
order); handlers are identified by opaque numeric ids. -/
structure EventPublisherSt where
  subscribers : AppEventType → List Nat

/-- Embeds `EventPublisher.subscribe`: appends the handler to the list for the event
type (`self._subscribers[event_type].append(handler)`).  Registration is not
deduplicated. -/
def subscribe (b : EventPublisherSt) (k : AppEventType) (h : Nat) : EventPublisherSt :=
  ⟨fun k' => if k' = k then b.subscribers k' ++ [h] else b.subscribers k'⟩

/-- Python `list.remove` semantics: removes the first occurrence; if the element is
absent the `ValueError` is caught in `unsubscribe` and the registry is
unchanged, which coincides with returning the list unchanged here. -/
def removeFirst : List Nat → Nat → List Nat
  | [], _ => []
  | x :: xs, h => if x = h then xs else x :: removeFirst xs h

/-- Embeds `EventPublisher.unsubscribe`: removes the first matching registration for
the event type; removing an absent handler is a logged no-op. -/
def unsubscribe (b : EventPublisherSt) (k : AppEventType) (h : Nat) : EventPublisherSt :=
  ⟨fun k' => if k' = k then removeFirst (b.subscribers k') h else b.subscribers k'⟩

/-- A handler behaviour: calling handler `h` on bus state `b` yields the bus
state after the side effects of the call together with `some msg` when the call
raised an exception (the state already reflects any mutations made before the
raise).  Handlers may in particular call `subscribe` / `unsubscribe` on the
bus, so this covers re-entrant registry mutation during `publish`. -/
def HandlerEffect : Type := Nat → EventPublisherSt → EventPublisherSt × Option String

/-- The `for handler in handlers_to_call` loop of `EventPublisher.publish`,
over an already-taken snapshot list, returning the final bus state and the
list of handlers actually invoked, in invocation order.  (Exception capture is
modelled separately in `runHandlersC`.) -/
def runHandlers (eff : HandlerEffect) : List Nat → EventPublisherSt → EventPublisherSt × List Nat
  | [], b => (b, [])
  | h :: rest, b =>
    let step := eff h b
    let r := runHandlers eff rest step.1
    (r.1, h :: r.2)

/-- Embeds `EventPublisher.publish`: takes a snapshot of the current subscriber list
for the event type (`list(self._subscribers.get(event_type, []))`, under the
lock) and then invokes the snapshot outside the lock. -/
def publish (eff : HandlerEffect) (b : EventPublisherSt) (k : AppEventType) :
    EventPublisherSt × List Nat :=
  runHandlers eff (b.subscribers k) b

/-- The `try: handler(...) except Exception: log(...)` wrapper around one
handler call in `publish`: a raised exception is caught and converted into a
logged `(handler, message)` record; it never propagates, so the result is
always `Except.ok`. -/
def tryCallHandler (eff : HandlerEffect) (h : Nat) (b : EventPublisherSt) :
    Except String (EventPublisherSt × Option (Nat × String)) :=
  match eff h b with
  | (b', none) => .ok (b', none)
  | (b', some msg) => .ok (b', some (h, msg))

/-- The handler loop of `publish` in the `Except` monad: an uncaught exception
would surface as `Except.error`; the per-handler `try/except` in the source is
`tryCallHandler`.  Returns final state, invoked handlers in order, and the
logged handler errors. -/
def runHandlersC (eff : HandlerEffect) :
    List Nat → EventPublisherSt →
      Except String (EventPublisherSt × List Nat × List (Nat × String))
  | [], b => .ok (b, [], [])
  | h :: rest, b => do
    let step ← tryCallHandler eff h b
    let r ← runHandlersC eff rest step.1
    .ok (r.1, h :: r.2.1, match step.2 with
      | some e => e :: r.2.2
      | none => r.2.2)

/-- Variant of `EventPublisher.publish` with exception accounting: snapshot, then the
caught handler loop. -/
def publishC (eff : HandlerEffect) (b : EventPublisherSt) (k : AppEventType) :
    Except String (EventPublisherSt × List Nat × List (Nat × String)) :=
  runHandlersC eff (b.subscribers k) b

theorem runHandlers_invoked (eff : HandlerEffect) :
    ∀ (l : List Nat) (b : EventPublisherSt), (runHandlers eff l b).2 = l := by
  intro l
  induction l with
  | nil => intro b; rfl
  | cons h rest ih =>
    intro b
    simp [runHandlers, ih]

theorem runHandlersC_ok (eff : HandlerEffect) :
    ∀ (l : List Nat) (b : EventPublisherSt),
      ∃ b' errs, runHandlersC eff l b = .ok (b', l, errs) := by
  intro l
  induction l with
  | nil => intro b; exact ⟨b, [], rfl⟩
  | cons h rest ih =>
    intro b
    cases hstep : eff h b with
    | mk b1 exn =>
      obtain ⟨b', errs, hrec⟩ := ih b1
      cases exn with
      | none =>
        refine ⟨b', errs, ?_⟩
        simp [runHandlersC, tryCallHandler, hstep, hrec, Bind.bind, Except.bind]
      | some msg =>
        refine ⟨b', (h, msg) :: errs, ?_⟩
        simp [runHandlersC, tryCallHandler, hstep, hrec, Bind.bind, Except.bind]

/-- C1: for every registry state, every event kind and every behaviour of the
handlers — including behaviours that `subscribe` or `unsubscribe` handlers for
the same kind during the call — `publish` invokes exactly the handlers that
were registered for the kind at the moment it takes its snapshot, in
registration (insertion) order. -/
theorem publish_invokes_snapshot_in_order
    (eff : HandlerEffect) (b : EventPublisherSt) (k : AppEventType) :
    (publish eff b k).2 = b.subscribers k := by
  unfold publish
  exact runHandlers_invoked eff (b.subscribers k) b

/-- C2: for every event kind and every subscribed-handler list, even when some
handlers raise during `publish`, every handler of the snapshot is still
invoked (in particular every handler after a raising one), and the `publish`
call itself returns normally — it never propagates an exception to its
caller. -/
theorem publish_isolates_handler_exceptions
    (eff : HandlerEffect) (b : EventPublisherSt) (k : AppEventType) :
    ∃ b' errs, publishC eff b k = .ok (b', b.subscribers k, errs) := by
  unfold publishC
  exact runHandlersC_ok eff (b.subscribers k) b

/-- OS/process oracle for one call to `ServerManager.shutdown_server`
(`comfy-ui/launcher/server_manager.py`, lines 129–183).  Each field decides
one branch the code can take; platform-specific polite-signal details
(Windows `CTRL_BREAK_EVENT`, Unix `killpg`/fallback `send_signal`, the inner
`ProcessLookupError`/`AttributeError` handlers) all either complete the
polite-signal step or raise past it into the outer `except Exception`. -/
structure ShutdownBeh where
  /-- sending the polite signal raises an exception that escapes the inner
  handlers (outer `except Exception` path). -/
  politeUncaught : Bool
  /-- whether `process.wait(timeout=10)` raises something other than
  `TimeoutExpired` (outer `except Exception` path). -/
  waitRaisesOther : Bool
  /-- whether `process.wait(timeout=10)` returns within the 10-unit grace period. -/
  exitsInGrace : Bool
  /-- whether `process.wait(timeout=5)` after `kill()` returns within 5 units
  (affects logging only). -/
  exitsAfterKill : Bool
  /-- inside the outer `except Exception` branch, `poll()` reports the process
  still running. -/
  stillRunningInExcept : Bool
  deriving DecidableEq, Repr

/-- Result of one `shutdown_server` call: the number of forced-kill calls
(`process.kill()`), the number of polite group signals sent, whether the
graceful-exit log line was reached, the value of `self.server_process` when
the call returns, and whether the call was the early no-op return. -/
structure ShutdownResult where
  killCount : Nat
  politeSent : Bool
  graceful : Bool
  finalTracked : Option Nat
  noopReturn : Bool
  deriving DecidableEq, Repr

/-- Embeds `ServerManager.shutdown_server`.  Here `tracked` is `self.server_process` at
entry (the pid of the tracked `Popen`, or `none`); `exitedAtEntry` is whether
`poll()` reports the process already exited.  The `finally` block always
clears `self.server_process`. -/
def shutdown_server (tracked : Option Nat) (exitedAtEntry : Bool) (b : ShutdownBeh) :
    ShutdownResult :=
  match tracked with
  | none => ⟨0, false, false, none, true⟩
  | some _ =>
    if exitedAtEntry then ⟨0, false, false, none, true⟩
    else if b.politeUncaught then
      -- outer except: log; if poll() is None, kill() and wait(timeout=5)
      if b.stillRunningInExcept then ⟨1, false, false, none, false⟩
      else ⟨0, false, false, none, false⟩
    else if b.waitRaisesOther then
      if b.stillRunningInExcept then ⟨1, true, false, none, false⟩
      else ⟨0, true, false, none, false⟩
    else if b.exitsInGrace then
      -- wait(timeout=10) returned: graceful exit, no kill
      ⟨0, true, true, none, false⟩
    else
      -- TimeoutExpired: one kill(), then wait(timeout=5); on a second
      -- TimeoutExpired only an error is logged — kill is not called again
      ⟨1, true, false, none, false⟩

/-- C3: `shutdown_server` on a running tracked process, with the polite
signal delivered and the grace wait behaving normally: if the process exits
within the 10-unit grace period, no forced-kill call is issued; if it does
not, exactly one forced-kill call is issued; and on both paths the tracked
handle is cleared by the time the call returns. -/
theorem shutdown_server_grace_then_single_kill
    (pid : Nat) (b : ShutdownBeh)
    (hp : b.politeUncaught = false) (hw : b.waitRaisesOther = false) :
    (b.exitsInGrace = true →
        (shutdown_server (some pid) false b).killCount = 0)
    ∧ (b.exitsInGrace = false →
        (shutdown_server (some pid) false b).killCount = 1)
    ∧ (shutdown_server (some pid) false b).finalTracked = none := by
  refine ⟨fun hg => ?_, fun hg => ?_, ?_⟩
  · simp [shutdown_server, hp, hw, hg]
  · simp [shutdown_server, hp, hw, hg]
  · cases hg : b.exitsInGrace <;> simp [shutdown_server, hp, hw, hg]

theorem shutdown_server_grace_then_single_kill_witness :
    ((shutdown_server (some 7) false ⟨false, false, true, true, false⟩).killCount = 0)
    ∧ ((shutdown_server (some 7) false ⟨false, false, false, true, false⟩).killCount = 1) := by
  have h1 := shutdown_server_grace_then_single_kill 7
      ⟨false, false, true, true, false⟩ rfl rfl
  have h2 := shutdown_server_grace_then_single_kill 7
      ⟨false, false, false, true, false⟩ rfl rfl
  exact ⟨h1.1 rfl, h2.2.1 rfl⟩

/-- C4 counterexample: on the concrete behaviour where the process ignores the
polite signal (grace timeout) and is still alive after the forced kill and the
5-unit wait, `shutdown_server` issues exactly one forced-kill call — it does
not retry the forcible kill a second time as the claim states. -/
theorem shutdown_server_no_second_kill_counterexample :
    (shutdown_server (some 7) false ⟨false, false, false, false, false⟩).killCount = 1
    ∧ ¬ (shutdown_server (some 7) false
          ⟨false, false, false, false, false⟩).killCount = 2 := by
  decide

/-- C4 (amended): if the tracked process is still alive after the grace-period
timeout, exactly one forced kill is issued followed by a short (5-unit) wait;
if the OS reports the process still alive after that wait, an error is logged
but the kill is not retried — the kill count is one regardless of whether the
process dies after the kill; and the tracked handle is cleared regardless of
which path was taken. -/
theorem shutdown_server_timeout_kill_once
    (pid : Nat) (b : ShutdownBeh)
    (hp : b.politeUncaught = false) (hw : b.waitRaisesOther = false)
    (hg : b.exitsInGrace = false) :
    (shutdown_server (some pid) false b).killCount = 1
    ∧ ∀ (tracked : Option Nat) (e : Bool) (b' : ShutdownBeh),
        (shutdown_server tracked e b').finalTracked = none := by
  constructor
  · simp [shutdown_server, hp, hw, hg]
  · intro tracked e b'
    cases tracked with
    | none => rfl
    | some p =>
      simp only [shutdown_server]
      cases e <;> cases hbp : b'.politeUncaught <;>
        cases hbw : b'.waitRaisesOther <;>
        cases hbg : b'.exitsInGrace <;>
        cases hbs : b'.stillRunningInExcept <;>
        simp [hbp, hbw, hbg, hbs]

theorem shutdown_server_timeout_kill_once_witness :
    (shutdown_server (some 7) false ⟨false, false, false, false, false⟩).killCount = 1 :=
  (shutdown_server_timeout_kill_once 7
    ⟨false, false, false, false, false⟩ rfl rfl rfl).1

/-- C8: `shutdown_server` with no tracked process, or with a tracked process
that has already exited on its own, is a no-op: it returns without error
through the early-return path, sends no signal, issues no kill, and leaves
the tracked handle cleared. -/
theorem shutdown_server_noop_when_untracked_or_exited
    (pid : Nat) (e : Bool) (b : ShutdownBeh) :
    shutdown_server none e b = ⟨0, false, false, none, true⟩
    ∧ shutdown_server (some pid) true b = ⟨0, false, false, none, true⟩ := by
  exact ⟨rfl, by simp [shutdown_server]⟩

/-- Result of `ServerManager.wait_for_server_availability`: whether a connect
succeeded, how many TCP connect attempts were made, and how many
`time.sleep(delay)` calls were made (the source sleeps after every failed
attempt, including the last one). -/
structure AvailResult where
  ok : Bool
  attempts : Nat
  sleeps : Nat
  deriving DecidableEq, Repr

/-- The `for i in range(retries)` loop of `wait_for_server_availability`:
`avail i` is whether the TCP connect of attempt `i` (0-based) reaches a
listener at `(connect_host, port)`; `rem` is the number of attempts left and
`i` the number already made.  On success the function returns `True`
immediately; on failure it sleeps and continues; after the loop it returns
`False`. -/
def waitAvailAux (avail : Nat → Bool) : Nat → Nat → AvailResult
  | 0, i => ⟨false, i, i⟩
  | Nat.succ rem, i =>
    if avail i then ⟨true, i + 1, i⟩
    else waitAvailAux avail rem (i + 1)

/-- Embeds `ServerManager.wait_for_server_availability(retries, delay)`
(`comfy-ui/launcher/server_manager.py`, lines 114–127). -/
def wait_for_server_availability (avail : Nat → Bool) (retries : Nat) : AvailResult :=
  waitAvailAux avail retries 0

theorem waitAvailAux_all_closed (avail : Nat → Bool) :
    ∀ (rem i : Nat), (∀ j, i ≤ j → j < i + rem → avail j = false) →
      waitAvailAux avail rem i = ⟨false, i + rem, i + rem⟩ := by
  intro rem
  induction rem with
  | zero => intro i _; simp [waitAvailAux]
  | succ rem ih =>
    intro i h
    have hi : avail i = false := h i (Nat.le_refl i) (by omega)
    have hrec := ih (i + 1) (fun j hj1 hj2 => h j (by omega) (by omega))
    simp only [waitAvailAux, hi, Bool.false_eq_true, if_false, hrec]
    congr 1 <;> omega

theorem waitAvailAux_first_open (avail : Nat → Bool) :
    ∀ (rem i k : Nat), i ≤ k → k < i + rem → avail k = true →
      (∀ j, i ≤ j → j < k → avail j = false) →
      waitAvailAux avail rem i = ⟨true, k + 1, k⟩ := by
  intro rem
  induction rem with
  | zero => intro i k h1 h2; omega
  | succ rem ih =>
    intro i k h1 h2 hk hbefore
    by_cases hik : i = k
    · subst hik
      simp [waitAvailAux, hk]
    · have hi : avail i = false := hbefore i (Nat.le_refl i) (by omega)
      have hrec := ih (i + 1) k (by omega) (by omega) hk
        (fun j hj1 hj2 => hbefore j (by omega) hj2)
      simp [waitAvailAux, hi, hrec]

/-- C7: `wait_for_server_availability` makes at most `retries` TCP connect
attempts with a sleep of `delay` after each failed one; against a port with no
listener on any attempt it returns `False` after exactly `retries` attempts,
and if the first reachable attempt is attempt `k` (0-based, within the
budget) it returns `True` right there, after `k + 1` attempts. -/
theorem wait_for_server_availability_first_success_or_exhaust
    (avail : Nat → Bool) (retries : Nat) :
    ((∀ j, j < retries → avail j = false) →
        wait_for_server_availability avail retries = ⟨false, retries, retries⟩)
    ∧ (∀ k, k < retries → avail k = true → (∀ j, j < k → avail j = false) →
        wait_for_server_availability avail retries = ⟨true, k + 1, k⟩) := by
  constructor
  · intro h
    have := waitAvailAux_all_closed avail retries 0
      (fun j _ hj2 => h j (by omega))
    simpa [wait_for_server_availability] using this
  · intro k hk hak hbefore
    exact waitAvailAux_first_open avail retries 0 k (Nat.zero_le k) (by omega) hak
      (fun j _ hj2 => hbefore j hj2)

theorem wait_for_server_availability_witness :
    wait_for_server_availability (fun i => decide (i = 3)) 5 = ⟨true, 4, 3⟩
    ∧ wait_for_server_availability (fun _ => false) 3 = ⟨false, 3, 3⟩ :=
  ⟨(wait_for_server_availability_first_success_or_exhaust (fun i => decide (i = 3)) 5).2
      3 (by decide) (by decide) (by decide),
   (wait_for_server_availability_first_success_or_exhaust (fun _ => false) 3).1
      (fun j _ => rfl)⟩

/-- The availability check inside `GUIManager.redirect_when_ready_loop` of
`comfy_launcher/gui_manager.py` (line 227): the loop body calls
`self.server_manager.wait_for_server_availability()` with no arguments, so
the call runs with the defaults `retries=120, delay=1.0` of
`comfy_launcher/server_manager.py`; the call takes no stop event and cannot
observe cancellation while it runs. -/
def clRedirectAvailCheck (avail : Nat → Bool) : AvailResult :=
  wait_for_server_availability avail 120

/-- The fixed check interval (seconds) of the redirect loop
(`check_interval = 2` in `comfy_launcher/gui_manager.py`, and
`REDIRECT_LOOP_CHECK_INTERVAL = 2` in `comfy-ui/launcher/gui_manager.py`). -/
def redirectLoopCheckInterval : Nat := 2

/-- C6 (bug evaluation): with the server never reachable, one iteration of the
`comfy_launcher` redirect loop blocks inside its availability call for 120
failed connect attempts — each followed by a `time.sleep(1.0)` — before the
stop signal can next be observed, so a cancellation arriving during that call
is noticed only after up to 120 sleep seconds, far beyond the 2-second check
interval the claim (and the `comfy-ui` variant, which passes
`retries=1, delay=0.1`) bounds the latency by. -/
theorem clRedirectAvailCheck_ignores_cancellation_for_120_attempts :
    clRedirectAvailCheck (fun _ => false) = ⟨false, 120, 120⟩
    ∧ redirectLoopCheckInterval < (clRedirectAvailCheck (fun _ => false)).sleeps := by
  decide

/-- Configuration of a `ServerManager` as far as the claims need it: the
ComfyUI working directory, the python executable, and the port. -/
structure SMConfig where
  comfyuiPath : String
  pythonExe : String
  port : Nat
  deriving DecidableEq, Repr

/-- Outcome of the `psutil` scan in `ServerManager.kill_process_on_port`
(`comfy-ui/launcher/server_manager.py`, lines 25–43): a conflicting listener
was found and killed, none was found, or one of the caught exceptions
occurred. -/
inductive PortScanOutcome where
  | found (pid : Nat)
  | notFound
  | noSuchProcess
  | accessDenied
  | otherError
  deriving DecidableEq, Repr

/-- Embeds `ServerManager.kill_process_on_port`: the found-and-killed branch ends in
a bare `return`, and every other path falls off the end of the function — in
Python both produce `None`.  The return type `Option Bool` stands for the
Python value: `none` is `None`, `some b` would be a boolean result (which no
path produces). -/
def kill_process_on_port (o : PortScanOutcome) : Option Bool :=
  match o with
  | .found _ => none
  | .notFound => none
  | .noSuchProcess => none
  | .accessDenied => none
  | .otherError => none

/-- Python truthiness of an `Option Bool` value: `None` is falsy. -/
def pythonTruthy : Option Bool → Bool
  | none => false
  | some b => b

/-- Filesystem/OS oracle for one `ServerManager.start_server` call. -/
structure FSOracle where
  /-- whether `self.comfyui_path.exists() and self.comfyui_path.is_dir()` holds -/
  comfyDirOk : Bool
  /-- whether `self.python_executable.exists() and self.python_executable.is_file()` holds -/
  pythonFileOk : Bool
  /-- whether `(self.comfyui_path / "main.py").exists()` holds -/
  mainPyOk : Bool
  /-- whether `subprocess.Popen` succeeds (neither `FileNotFoundError` nor another
  exception) -/
  spawnOk : Bool
  /-- pid of the spawned process when the spawn succeeds -/
  pid : Nat
  deriving DecidableEq, Repr

/-- Result of one `start_server` call: the returned value (`Popen` handle pid
or `None`), the value of `self.server_process` after the call (given its value
`prev` before), whether `subprocess.Popen` was ever reached, and the error
messages written to the launcher log. -/
structure StartResult where
  ret : Option Nat
  serverProcField : Option Nat
  spawnAttempted : Bool
  logErrors : List String
  deriving DecidableEq, Repr

def comfyPathMissingLogMsg (cfg : SMConfig) : String :=
  "ComfyUI path (" ++ cfg.comfyuiPath ++ ") does not exist or is not a directory."

def pythonExeMissingLogMsg (cfg : SMConfig) : String :=
  "Python executable (" ++ cfg.pythonExe ++ ") does not exist or is not a file."

def mainPyMissingLogMsg (cfg : SMConfig) : String :=
  "ComfyUI main.py not found at " ++ cfg.comfyuiPath ++ "/main.py"

def spawnFailedLogMsg : String :=
  "An unhandled error occurred while trying to launch the ComfyUI server."

/-- Embeds `ServerManager.start_server` (`comfy-ui/launcher/server_manager.py`,
lines 46–112): three path-validation checks each log an error and return
`None` without touching `self.server_process` or spawning; then `Popen` is
attempted — on success the handle is stored and returned, on
`FileNotFoundError` or any other exception the field is set to `None` and
`None` is returned. -/
def start_server (cfg : SMConfig) (fs : FSOracle) (prev : Option Nat) : StartResult :=
  if !fs.comfyDirOk then
    ⟨none, prev, false, [comfyPathMissingLogMsg cfg]⟩
  else if !fs.pythonFileOk then
    ⟨none, prev, false, [pythonExeMissingLogMsg cfg]⟩
  else if !fs.mainPyOk then
    ⟨none, prev, false, [mainPyMissingLogMsg cfg]⟩
  else if fs.spawnOk then
    ⟨some fs.pid, some fs.pid, true, []⟩
  else
    ⟨none, none, true, [spawnFailedLogMsg]⟩

/-- Naive substring test on strings (for "the message contains the missing
path"): some position of the haystack starts with the needle. -/
def strHasSub (hay needle : String) : Bool :=
  (List.range (hay.data.length + 1)).any fun i =>
    (hay.data.drop i).take needle.data.length == needle.data

/-- Events published by the background monitor (`app_logic_thread_func` in
`comfy_launcher/__main__.py`), with their payloads: `criticalError m` is
`publish(APPLICATION_CRITICAL_ERROR, message=m)`, `serverStoppedUnexpectedly`
is `publish(SERVER_STOPPED_UNEXPECTEDLY, pid=…, returncode=…)`, and
`appLogicShutdownComplete` is `publish(APP_LOGIC_SHUTDOWN_COMPLETE)`. -/
inductive Ev where
  | criticalError (message : String)
  | serverStoppedUnexpectedly (pid : Nat) (returncode : Int)
  | appLogicShutdownComplete
  deriving DecidableEq, Repr

/-- Message published when the GUI does not signal content-loaded within the
20-second timeout (`__main__.py`, line 111). -/
def guiLoadFailMsg : String := "GUI did not load correctly. Check launcher logs."

/-- Message published when `start_server` returns `None`
(`__main__.py`, line 132). -/
def startFailMsg : String :=
  "Could not start the ComfyUI server. Please check the server.log file for details."

/-- Warning logged after the port-preemption check (`__main__.py`, line 122). -/
def killFailWarning (port : Nat) : String :=
  "Failed to kill process on port " ++ toString port ++ ". Server start might fail if port is busy."

/-- The bounded timeout (seconds) of the wait for the GUI content-loaded
signal: `_gui_initial_content_loaded_event.wait(timeout=20)`
(`__main__.py`, line 109). -/
def guiContentLoadedTimeout : Nat := 20

/-- The supervise loop of `app_logic_thread_func` (lines 147–156): while the
shutdown event is unset, poll the child; if it has exited, re-check the event
and publish `SERVER_STOPPED_UNEXPECTEDLY(pid, returncode)`, then stop.
`pollRes i` is `poll()` at iteration `i` (`none` = still running, `some rc` =
exited with code `rc`); `reads r` is the `r`-th read of the shutdown event
inside the loop (the `while` condition, the re-check before publishing, and
`wait(timeout=1)` each consume one read); `fuel` bounds the modelled prefix
of the loop. -/
def monitorLoop (pollRes : Nat → Option Int) (reads : Nat → Bool) (pid : Nat) :
    Nat → Nat → Nat → List Ev
  | 0, _, _ => []
  | Nat.succ fuel, iter, r =>
    if reads r then []
    else match pollRes iter with
      | some rc =>
        if reads (r + 1) then [] else [Ev.serverStoppedUnexpectedly pid rc]
      | none =>
        if reads (r + 1) then []
        else monitorLoop pollRes reads pid fuel (iter + 1) (r + 2)

/-- Environment oracle for one run of `app_logic_thread_func`: `shut n` is the
`n`-th read of `shutdown_event_param` in the startup pipeline (line 113 is
read 0, the two `wait(0.5)` calls and the `is_set` checks at lines 117, 119,
123, 125 are reads 1–4, line 134 is read 5); the remaining fields are the
oracles of the called operations. -/
structure AppEnv where
  guiLoadedInTime : Bool
  shut : Nat → Bool
  portScan : PortScanOutcome
  fs : FSOracle
  prevProc : Option Nat
  monitorFuel : Nat
  pollRes : Nat → Option Int
  monReads : Nat → Bool
  aliveAtCleanup : Bool

/-- Observable trace of one `app_logic_thread_func` run. -/
structure AppTrace where
  published : List Ev
  warnings : List String
  statuses : List String
  startServerCalled : Bool
  serverProc : Option Nat
  shutdownServerCalled : Bool
  deriving DecidableEq, Repr

/-- The `try:` body of `app_logic_thread_func` (`comfy_launcher/__main__.py`,
lines 107–156), with its early returns as nested branches. -/
def appLogicBody (cfg : SMConfig) (env : AppEnv) : List Ev × List String × List String × Bool × Option Nat :=
  if !env.guiLoadedInTime then
    ([Ev.criticalError guiLoadFailMsg], [], [], false, none)
  else if env.shut 0 then ([], [], [], false, none)
  else if env.shut 1 then ([], [], ["Initializing..."], false, none)
  else if env.shut 2 then ([], [], ["Initializing..."], false, none)
  else
    let w := if pythonTruthy (kill_process_on_port env.portScan) then []
             else [killFailWarning cfg.port]
    let sts := ["Initializing...", "Clearing network port " ++ toString cfg.port ++ "..."]
    if env.shut 3 then ([], w, sts, false, none)
    else if env.shut 4 then ([], w, sts, false, none)
    else
      let sts2 := sts ++ ["Starting ComfyUI server process..."]
      let sr := start_server cfg env.fs env.prevProc
      match sr.ret with
      | none => ([Ev.criticalError startFailMsg], w, sts2, true, none)
      | some pid =>
        if env.shut 5 then ([], w, sts2, true, some pid)
        else
          (monitorLoop env.pollRes env.monReads pid env.monitorFuel 0 0,
            w, sts2, true, some pid)

/-- Embeds `app_logic_thread_func`: the `try:` body followed by the `finally:` block,
which joins the redirect thread, calls `shutdown_server` when a launched
process is still tracked and alive, and always publishes
`APP_LOGIC_SHUTDOWN_COMPLETE`. -/
def app_logic_thread_func (cfg : SMConfig) (env : AppEnv) : AppTrace :=
  let b := appLogicBody cfg env
  { published := b.1 ++ [Ev.appLogicShutdownComplete]
    warnings := b.2.1
    statuses := b.2.2.1
    startServerCalled := b.2.2.2.1
    serverProc := b.2.2.2.2
    shutdownServerCalled := b.2.2.2.2.isSome && env.aliveAtCleanup }

theorem start_server_validation_failure (cfg : SMConfig) (fs : FSOracle) (prev : Option Nat)
    (hv : fs.comfyDirOk = false ∨ fs.pythonFileOk = false ∨ fs.mainPyOk = false) :
    (start_server cfg fs prev).ret = none
    ∧ (start_server cfg fs prev).spawnAttempted = false
    ∧ (start_server cfg fs prev).serverProcField = prev := by
  cases hc : fs.comfyDirOk <;> cases hp : fs.pythonFileOk <;> cases hm : fs.mainPyOk <;>
    simp_all [start_server]

theorem kill_process_on_port_none (o : PortScanOutcome) :
    kill_process_on_port o = none := by
  cases o <;> rfl

/-- C9: the background monitor waits a bounded 20-second timeout for the GUI
content-loaded signal; when the signal does not arrive in time it publishes an
`APPLICATION_CRITICAL_ERROR` event and returns (running only its `finally`
cleanup, which publishes `APP_LOGIC_SHUTDOWN_COMPLETE`) without ever calling
`start_server`. -/
theorem app_logic_gui_timeout_aborts (cfg : SMConfig) (env : AppEnv)
    (h : env.guiLoadedInTime = false) :
    guiContentLoadedTimeout = 20
    ∧ (app_logic_thread_func cfg env).published
        = [Ev.criticalError guiLoadFailMsg, Ev.appLogicShutdownComplete]
    ∧ (app_logic_thread_func cfg env).startServerCalled = false := by
  refine ⟨rfl, ?_, ?_⟩ <;> simp [app_logic_thread_func, appLogicBody, h]

def cfgW : SMConfig := ⟨"/opt/comfyui", "/usr/bin/python3", 8188⟩

def envTimeoutW : AppEnv :=
  ⟨false, fun _ => false, .notFound, ⟨true, true, true, true, 4242⟩, none,
    3, fun _ => none, fun _ => false, false⟩

theorem app_logic_gui_timeout_aborts_witness :
    (app_logic_thread_func cfgW envTimeoutW).published
        = [Ev.criticalError guiLoadFailMsg, Ev.appLogicShutdownComplete]
    ∧ (app_logic_thread_func cfgW envTimeoutW).startServerCalled = false :=
  ⟨(app_logic_gui_timeout_aborts cfgW envTimeoutW rfl).2.1,
   (app_logic_gui_timeout_aborts cfgW envTimeoutW rfl).2.2⟩

/-- C10: `kill_process_on_port` returns `None` on every path, so its return
value cannot distinguish a successful preemption from a failed one; the
check in the caller, `if not current_server_manager.kill_process_on_port():`, is
therefore satisfied on every run that reaches it, and the
"Failed to kill process on port" warning is logged regardless of the scan
outcome, including when preemption succeeded or was unnecessary. -/
theorem kill_process_on_port_always_none_warning_always_logged
    (cfg : SMConfig) (env : AppEnv)
    (h1 : env.guiLoadedInTime = true) (h2 : env.shut 0 = false)
    (h3 : env.shut 1 = false) (h4 : env.shut 2 = false) :
    (∀ o, kill_process_on_port o = none)
    ∧ (∀ o₁ o₂, kill_process_on_port o₁ = kill_process_on_port o₂)
    ∧ pythonTruthy (kill_process_on_port env.portScan) = false
    ∧ killFailWarning cfg.port ∈ (app_logic_thread_func cfg env).warnings := by
  have hnone : kill_process_on_port env.portScan = none := by
    cases env.portScan <;> rfl
  refine ⟨fun o => by cases o <;> rfl,
          fun o₁ o₂ => by cases o₁ <;> cases o₂ <;> rfl,
          by rw [hnone]; rfl, ?_⟩
  have hb : (appLogicBody cfg env).2.1 = [killFailWarning cfg.port] := by
    cases h5 : env.shut 3 <;> cases h6 : env.shut 4 <;>
      cases hr : (start_server cfg env.fs env.prevProc).ret <;>
      cases h7 : env.shut 5 <;>
      simp [appLogicBody, h1, h2, h3, h4, h5, h6, h7, hr, hnone, pythonTruthy]
  simp [app_logic_thread_func, hb]

def envPortW : AppEnv :=
  ⟨true, fun _ => false, .found 999, ⟨true, true, true, true, 4242⟩, none,
    3, fun _ => none, fun _ => false, false⟩

theorem kill_process_on_port_always_none_warning_always_logged_witness :
    kill_process_on_port (.found 999) = none
    ∧ killFailWarning cfgW.port ∈ (app_logic_thread_func cfgW envPortW).warnings :=
  ⟨(kill_process_on_port_always_none_warning_always_logged cfgW envPortW
      rfl rfl rfl rfl).1 (.found 999),
   (kill_process_on_port_always_none_warning_always_logged cfgW envPortW
      rfl rfl rfl rfl).2.2.2⟩

def envPathFailW : AppEnv :=
  ⟨true, fun _ => false, .notFound, ⟨false, true, true, true, 4242⟩, none,
    3, fun _ => none, fun _ => false, false⟩

/-- C5 counterexample: with the ComfyUI working directory `/opt/comfyui`
missing, `start_server` returns `None` and the background monitor publishes
exactly one `APPLICATION_CRITICAL_ERROR` event, whose message is the fixed
generic string — it does not contain the missing path (which appears only in
the launcher-log error line). -/
theorem start_server_critical_message_lacks_path_counterexample :
    (start_server cfgW envPathFailW.fs none).ret = none
    ∧ (app_logic_thread_func cfgW envPathFailW).published
        = [Ev.criticalError startFailMsg, Ev.appLogicShutdownComplete]
    ∧ strHasSub startFailMsg cfgW.comfyuiPath = false
    ∧ strHasSub (comfyPathMissingLogMsg cfgW) cfgW.comfyuiPath = true := by
  refine ⟨rfl, by decide, by decide, by decide⟩

/-- C5 (amended): when `start_server` fails path validation (missing ComfyUI
directory, python executable, or `main.py`), it returns `None` rather than
raising, `subprocess.Popen` is never reached so no process handle is created
and `self.server_process` is left unchanged, and the background monitor
publishes a `CriticalError` event whose message is the fixed generic string
"Could not start the ComfyUI server. Please check the server.log file for
details." — the missing path is written to the launcher log, not to the event
message. -/
theorem start_server_path_failure_publishes_generic_critical
    (cfg : SMConfig) (env : AppEnv)
    (h1 : env.guiLoadedInTime = true) (h2 : env.shut 0 = false)
    (h3 : env.shut 1 = false) (h4 : env.shut 2 = false)
    (h5 : env.shut 3 = false) (h6 : env.shut 4 = false)
    (hv : env.fs.comfyDirOk = false ∨ env.fs.pythonFileOk = false
          ∨ env.fs.mainPyOk = false) :
    (start_server cfg env.fs env.prevProc).ret = none
    ∧ (start_server cfg env.fs env.prevProc).spawnAttempted = false
    ∧ (start_server cfg env.fs env.prevProc).serverProcField = env.prevProc
    ∧ (app_logic_thread_func cfg env).published
        = [Ev.criticalError startFailMsg, Ev.appLogicShutdownComplete]
    ∧ (app_logic_thread_func cfg env).serverProc = none := by
  obtain ⟨hr, hs, hf⟩ := start_server_validation_failure cfg env.fs env.prevProc hv
  have hnone : kill_process_on_port env.portScan = none := by
    cases env.portScan <;> rfl
  refine ⟨hr, hs, hf, ?_, ?_⟩ <;>
    simp [app_logic_thread_func, appLogicBody, h1, h2, h3, h4, h5, h6, hnone,
      pythonTruthy, hr]

theorem start_server_path_failure_publishes_generic_critical_witness :
    (start_server cfgW envPathFailW.fs envPathFailW.prevProc).ret = none
    ∧ (app_logic_thread_func cfgW envPathFailW).published
        = [Ev.criticalError startFailMsg, Ev.appLogicShutdownComplete] :=
  ⟨(start_server_path_failure_publishes_generic_critical cfgW envPathFailW
      rfl rfl rfl rfl rfl rfl (Or.inl rfl)).1,
   (start_server_path_failure_publishes_generic_critical cfgW envPathFailW
      rfl rfl rfl rfl rfl rfl (Or.inl rfl)).2.2.2.1⟩
